import Mathlib

/-!
Shallow embedding of the Flask-Started movie-catalog application
(`src/app.py`) and proofs checking its specification's claims.

The embedding covers the data model (`User`, `Movie`), the Flask-Login
session state, the flash-message queue, `url_for`, and the request
handlers `login`, `logout`, `settings`, `index` (catalog list/create),
`edit`, `delete` and `user_page`. Handlers are total functions from the
application state and the submitted form fields to a new state paired
with a `Response`; an uncaught Python exception is modelled by the
`Response.error` constructor. The werkzeug password-hash digest is kept
abstract as a parameter `H : String → String → String` (salt → password
→ digest), since the hashing primitive is an external collaborator.
-/

namespace FlaskStarted

/-- A werkzeug-style salted password hash: the stored value records the
salt together with the digest of (salt, password) under the abstract
digest function `H`. -/
structure PasswordHash where
  salt : String
  digest : String
  deriving Repr, DecidableEq

/-- `generate_password_hash(password)`: derive a salted hash under the
abstract digest `H` using salt `salt`. -/
def generate_password_hash (H : String → String → String) (salt password : String) :
    PasswordHash :=
  { salt := salt, digest := H salt password }

/-- Modelled from the spec: werkzeug's `check_password_hash` is an external
collaborator not in the repository ("constant-time comparison is assumed
from the underlying primitive"). Per the spec's Credential Store contract
it recomputes the digest against the stored hash and "fails closed
(returns false) if no hash is stored". -/
def check_password_hash (H : String → String → String) :
    Option PasswordHash → String → Bool
  | none, _ => false
  | some h, password => H h.salt password == h.digest

/-- `class User(db.Model, UserMixin)` (src/app.py:114-124): integer primary
key `id`; nullable columns `name`, `username`, `password_hash`. -/
structure User where
  id : Nat
  name : Option String
  username : Option String
  password_hash : Option PasswordHash
  deriving Repr, DecidableEq

/-- `User.validate_password` (src/app.py:123-124): delegates to
`check_password_hash` on the stored hash. -/
def User.validate_password (H : String → String → String) (u : User)
    (password : String) : Bool :=
  check_password_hash H u.password_hash password

/-- `User.set_password` (src/app.py:120-121): stores the salted hash of the
plaintext; the plaintext itself is never stored. -/
def User.set_password (H : String → String → String) (salt : String) (u : User)
    (password : String) : User :=
  { u with password_hash := some (generate_password_hash H salt password) }

/-- `class Movie(db.Model)` (src/app.py:127-130): integer primary key `id`,
string columns `title` (≤60) and `year` (4). Handlers only ever store
non-null strings in both columns. -/
structure Movie where
  id : Nat
  title : String
  year : String
  deriving Repr, DecidableEq

/-- Flask-Login session state: `Anonymous`, or `Authenticated(user_id)`
(`login_user` stores the user's id in the signed session cookie). -/
inductive Session where
  | anonymous
  | authenticated (userId : Nat)
  deriving Repr, DecidableEq

/-- The outcome of one request. Redirect targets are identified by endpoint
name (the argument of `url_for`; URL parameters are omitted); `notFound` is
an `abort(404)`; `error` models an uncaught Python exception propagating as
a 500 server error. -/
inductive Response where
  | redirect (endpoint : String)
  | render (template : String)
  | notFound
  | error (exn : String)
  deriving Repr, DecidableEq

/-- The application's state: the two database tables, the autoincrement
counter for `movie.id`, the Flask-Login session, and the flash queue. -/
structure AppState where
  users : List User
  movies : List Movie
  nextMovieId : Nat
  session : Session
  flashes : List String
  deriving Repr, DecidableEq

/-- `flash(message)`: append a one-shot message to the session's flash
queue. -/
def flash (st : AppState) (message : String) : AppState :=
  { st with flashes := st.flashes ++ [message] }

/-- The endpoints registered on the app: one per `@app.route` view function,
plus Flask's built-in `static` endpoint. -/
def endpoints : List String :=
  ["login", "logout", "settings", "index", "edit", "delete", "user_page",
   "test_url_for", "static"]

/-- `url_for(endpoint)`: succeeds only for registered endpoints; an unknown
endpoint name raises `werkzeug.routing.BuildError`. -/
def url_for (endpoint : String) : Option String :=
  if endpoints.contains endpoint then some endpoint else none

/-- `redirect(url_for(endpoint))`: a redirect response, or the propagating
`BuildError` when the endpoint does not exist. -/
def redirectTo (endpoint : String) : Response :=
  match url_for endpoint with
  | some e => Response.redirect e
  | none => Response.error "BuildError"

/-- `User.query.get(user_id)` — the row with the given primary key — as used
by the `load_user` callback (src/app.py:140-143). -/
def getUser (st : AppState) (userId : Nat) : Option User :=
  st.users.find? (fun u => u.id == userId)

/-- Flask-Login's `current_user` for the request: the user loaded from the
session's stored id, or none when the session is anonymous (or the stored
id no longer resolves to a row, in which case `is_authenticated` is false). -/
def currentUser (st : AppState) : Option User :=
  match st.session with
  | Session.anonymous => none
  | Session.authenticated userId => getUser st userId

/-- POST `/login` (src/app.py:146-163). Empty fields flash "Invalid input.";
otherwise the single `User.query.first()` row is the only record checked.
With an empty user table `User.query.first()` is `None` and the attribute
access `user.username` raises `AttributeError` (no handler catches it). -/
def login (H : String → String → String) (st : AppState)
    (username password : String) : AppState × Response :=
  if username = "" ∨ password = "" then
    (flash st "Invalid input.", redirectTo "login")
  else
    match st.users.head? with
    | none => (st, Response.error "AttributeError")
    | some user =>
      if some username = user.username ∧ user.validate_password H password = true then
        (flash { st with session := Session.authenticated user.id } "Login success.",
         redirectTo "index")
      else
        (flash st "Invalid username or password.", redirectTo "login")

/-- GET `/logout` (src/app.py:167-172), behind `login_required`: Flask-Login
flashes the configured `login_message` "Invalid login." and redirects to the
`login` view when there is no authenticated user (src/app.py:38-40). -/
def logout (st : AppState) : AppState × Response :=
  match currentUser st with
  | none => (flash st "Invalid login.", redirectTo "login")
  | some _ =>
    (flash { st with session := Session.anonymous } "Goodbye.", redirectTo "index")

/-- POST `/settings` (src/app.py:175-188), behind `login_required`. The
invalid-name branch flashes and then calls `url_for('settings.')` — with the
stray dot of src/app.py:183, an endpoint name that is not registered. -/
def settings_post (st : AppState) (name : String) : AppState × Response :=
  match currentUser st with
  | none => (flash st "Invalid login.", redirectTo "login")
  | some user =>
    if name = "" ∨ name.length > 20 then
      (flash st "Invalid input.", redirectTo "settings.")
    else
      let newUsers :=
        st.users.map (fun u => if u.id = user.id then { u with name := some name } else u)
      (flash { st with users := newUsers } "Settings updated.", redirectTo "index")

/-- `Movie.query.all()` (src/app.py:213): every row of the movie table. -/
def list_all (st : AppState) : List Movie :=
  st.movies

/-- `Movie.query.get(movie_id)`: the row with the given primary key. -/
def getMovie (st : AppState) (movieId : Nat) : Option Movie :=
  st.movies.find? (fun m => m.id == movieId)

/-- POST `/` (src/app.py:192-211): an unauthenticated POST is redirected to
the index with no effect; otherwise the `request.form.get` values (absent
fields are `None`, modelled as `none`) are validated and the movie created
with the next autoincrement id. -/
def index_post (st : AppState) (title year : Option String) :
    AppState × Response :=
  match currentUser st with
  | none => (st, redirectTo "index")
  | some _ =>
    match title, year with
    | some t, some y =>
      if t = "" ∨ y = "" ∨ y.length ≠ 4 ∨ t.length > 60 then
        (flash st "Invalid input.", redirectTo "index")
      else
        let newMovie : Movie := { id := st.nextMovieId, title := t, year := y }
        let st1 := { st with movies := st.movies ++ [newMovie], nextMovieId := st.nextMovieId + 1 }
        (flash st1 "Item created.", redirectTo "index")
    | _, _ => (flash st "Invalid input.", redirectTo "index")

/-- POST `/movie/edit/<movie_id>` (src/app.py:219-236), behind
`login_required`; `Movie.query.get_or_404` aborts with 404 when the id is
absent, before any form processing. -/
def edit_post (st : AppState) (movieId : Nat) (title year : String) :
    AppState × Response :=
  match currentUser st with
  | none => (flash st "Invalid login.", redirectTo "login")
  | some _ =>
    match getMovie st movieId with
    | none => (st, Response.notFound)
    | some _ =>
      if title = "" ∨ year = "" ∨ year.length ≠ 4 ∨ title.length > 60 then
        (flash st "Invalid input.", redirectTo "edit")
      else
        let newMovies :=
          st.movies.map (fun m => if m.id = movieId then { m with title := title, year := year } else m)
        (flash { st with movies := newMovies } "Item updated.", redirectTo "index")

/-- POST `/movie/delete/<movie_id>` (src/app.py:240-247), behind
`login_required`; `get_or_404` aborts with 404 when the id is absent,
otherwise the row is deleted and "Item deleted." flashed. -/
def delete_post (st : AppState) (movieId : Nat) : AppState × Response :=
  match currentUser st with
  | none => (flash st "Invalid login.", redirectTo "login")
  | some _ =>
    match getMovie st movieId with
    | none => (st, Response.notFound)
    | some _ =>
      (flash { st with movies := st.movies.filter (fun m => ! (m.id == movieId)) }
        "Item deleted.",
       redirectTo "index")

/-- The double-quote character, written by code point to keep source
scanning simple. -/
def quoteChar : Char := Char.ofNat 34

/-- The apostrophe character, written by code point. -/
def apostropheChar : Char := Char.ofNat 39

/-- `markupsafe.escape` on one character: the five HTML markup characters
become character entities, every other character is kept. -/
def escChar (c : Char) : List Char :=
  if c = '&' then ['&', 'a', 'm', 'p', ';']
  else if c = '<' then ['&', 'l', 't', ';']
  else if c = '>' then ['&', 'g', 't', ';']
  else if c = quoteChar then ['&', '#', '3', '4', ';']
  else if c = apostropheChar then ['&', '#', '3', '9', ';']
  else [c]

/-- `markupsafe.escape` over a character list. -/
def escapeChars : List Char → List Char
  | [] => []
  | c :: cs => escChar c ++ escapeChars cs

/-- `markupsafe.escape(s)` (src/app.py:12). -/
def escape (s : String) : String :=
  String.mk (escapeChars s.data)

/-- GET `/user/<name>` (src/app.py:250-252): the response body of
`f-string 'User Page : {escape(name)}'`. -/
def user_page (name : String) : String :=
  "User Page : " ++ escape name

/-- The characters after a `&` begin one of the five escape entity tails
(`amp;`, `lt;`, `gt;`, `#34;`, `#39;`). -/
def isEntityStart : List Char → Bool
  | 'a' :: 'm' :: 'p' :: ';' :: _ => true
  | 'l' :: 't' :: ';' :: _ => true
  | 'g' :: 't' :: ';' :: _ => true
  | '#' :: '3' :: '4' :: ';' :: _ => true
  | '#' :: '3' :: '9' :: ';' :: _ => true
  | _ => false

/-- One scanned position is markup-safe: the character is not a raw `<` or
`>`, and a `&` must begin one of the five escape entities. -/
def charOk (c : Char) (rest : List Char) : Bool :=
  if c = '<' ∨ c = '>' then false
  else if c = '&' then isEntityStart rest
  else true

/-- Every position of the list is markup-safe: `<` and `>` never occur, and
`&` occurs only as the start of an escape entity. -/
def noRawMarkup : List Char → Bool
  | [] => true
  | c :: rest => charOk c rest && noRawMarkup rest

/-! ### Concrete fixtures used by witnesses and counterexamples -/

/-- A concrete digest function for witnesses: the digest ignores the salt
and is the password itself (any deterministic digest works here). -/
def digest0 : String → String → String := fun _ password => password

/-- A provisioned admin user (as created by the `admin` CLI command), whose
stored hash validates the password "secret" under `digest0`. -/
def admin0 : User :=
  { id := 1, name := some "Admin", username := some "admin",
    password_hash := some { salt := "s1", digest := "secret" } }

/-- A user record with no stored password hash (e.g. the user seeded by the
`forge` CLI command, created as `User(name=name)` only). -/
def noHashUser : User :=
  { id := 2, name := some "Grey Li", username := none, password_hash := none }

/-- Base state: the admin provisioned, empty catalog, anonymous session. -/
def state0 : AppState :=
  { users := [admin0], movies := [], nextMovieId := 1,
    session := Session.anonymous, flashes := [] }

/-- `state0` with the admin logged in. -/
def stateAuth : AppState :=
  { state0 with session := Session.authenticated 1 }

/-- A concrete movie record used by fixtures. -/
def movie5 : Movie :=
  { id := 5, title := "Leon", year := "1994" }

/-- `stateAuth` with one movie in the catalog. -/
def stateAuthMovie : AppState :=
  { stateAuth with movies := [movie5], nextMovieId := 6 }

/-- A state with an empty user table. -/
def stateNoUsers : AppState :=
  { users := [], movies := [], nextMovieId := 1,
    session := Session.anonymous, flashes := [] }

/-- First of two stored users sharing username "admin" and password "pw"
(under `digest0`). -/
def adminA : User :=
  { id := 1, name := some "Admin", username := some "admin",
    password_hash := some { salt := "saltA", digest := "pw" } }

/-- Second stored user, same username and password as `adminA` but a
distinct row. -/
def adminB : User :=
  { id := 2, name := some "Other", username := some "admin",
    password_hash := some { salt := "saltB", digest := "pw" } }

/-- A state whose user table holds `adminA` then `adminB`. -/
def twoUserState : AppState :=
  { users := [adminA, adminB], movies := [], nextMovieId := 1,
    session := Session.anonymous, flashes := [] }

/-! ### Helper lemmas -/

theorem redirectTo_index : redirectTo "index" = Response.redirect "index" := by
  decide

theorem redirectTo_login : redirectTo "login" = Response.redirect "login" := by
  decide

theorem redirectTo_edit : redirectTo "edit" = Response.redirect "edit" := by
  decide

theorem redirectTo_settings_dot : redirectTo "settings." = Response.error "BuildError" := by
  decide

theorem currentUser_of_anonymous (st : AppState) (h : st.session = Session.anonymous) :
    currentUser st = none := by
  simp [currentUser, h]

theorem currentUser_flash_movies (st : AppState) (ms : List Movie) (msg : String) :
    currentUser (flash { st with movies := ms } msg) = currentUser st := rfl

theorem find?_filter_ne_id (l : List Movie) (i : Nat) :
    (l.filter (fun m => ! (m.id == i))).find? (fun m => m.id == i) = none := by
  rw [List.find?_eq_none]
  intro x hx
  have hxne := (List.mem_filter.mp hx).2
  simp at hxne ⊢
  exact hxne

theorem find?_id_append_fresh (l : List Movie) (i : Nat) (m : Movie)
    (hm : (m.id == i) = true) (hfresh : ∀ x ∈ l, x.id ≠ i) :
    (l ++ [m]).find? (fun mv => mv.id == i) = some m := by
  induction l with
  | nil => simp [List.find?, hm]
  | cons a as ih =>
    have ha : (a.id == i) = false := by
      simpa using hfresh a (List.mem_cons_self a as)
    simp only [List.cons_append, List.find?, ha]
    exact ih (fun x hx => hfresh x (List.mem_cons_of_mem a hx))

theorem charOk_of_plain (c : Char) (rest : List Char)
    (h1 : c ≠ '<') (h2 : c ≠ '>') (h3 : c ≠ '&') :
    charOk c rest = true := by
  simp [charOk, h1, h2, h3]

theorem noRawMarkup_escapeChars (l : List Char) :
    noRawMarkup (escapeChars l) = true := by
  induction l with
  | nil => rfl
  | cons c cs ih =>
    by_cases h1 : c = '&'
    · subst h1
      show noRawMarkup ('&' :: 'a' :: 'm' :: 'p' :: ';' :: escapeChars cs) = true
      exact ih
    by_cases h2 : c = '<'
    · subst h2
      show noRawMarkup ('&' :: 'l' :: 't' :: ';' :: escapeChars cs) = true
      exact ih
    by_cases h3 : c = '>'
    · subst h3
      show noRawMarkup ('&' :: 'g' :: 't' :: ';' :: escapeChars cs) = true
      exact ih
    by_cases h4 : c = quoteChar
    · subst h4
      show noRawMarkup ('&' :: '#' :: '3' :: '4' :: ';' :: escapeChars cs) = true
      exact ih
    by_cases h5 : c = apostropheChar
    · subst h5
      show noRawMarkup ('&' :: '#' :: '3' :: '9' :: ';' :: escapeChars cs) = true
      exact ih
    have hesc : escChar c = [c] := by
      simp [escChar, h1, h2, h3, h4, h5]
    show noRawMarkup (escChar c ++ escapeChars cs) = true
    rw [hesc]
    show (charOk c (escapeChars cs) && noRawMarkup (escapeChars cs)) = true
    rw [charOk_of_plain c _ h2 h3 h1, ih]
    rfl

/-! ### Claims -/

/-- C1 counterexample: an unauthenticated POST to the catalog index with an
empty title is silently redirected — the catalog is unchanged and the
response redirects to the index, but the flash message "Invalid input." is
not queued, refuting the claim's universally quantified flash conjunct. -/
theorem c1_counterexample :
    (index_post state0 (some "") (some "2016")).2 = Response.redirect "index" ∧
    (index_post state0 (some "") (some "2016")).1.movies = state0.movies ∧
    "Invalid input." ∉ (index_post state0 (some "") (some "2016")).1.flashes := by
  decide

/-- C1 (amended): for every authenticated POST to the catalog index whose
title is empty or longer than 60 characters, or whose year is empty or not
of length 4, no Movie record is persisted (the catalog is unchanged),
"Invalid input." is flashed, and the response redirects back to the catalog
index. -/
theorem c1_invalid_create_rejected (st : AppState) (u : User) (t y : String)
    (hauth : currentUser st = some u)
    (hbad : t = "" ∨ 60 < t.length ∨ y = "" ∨ y.length ≠ 4) :
    (index_post st (some t) (some y)).1.movies = st.movies ∧
    (index_post st (some t) (some y)).1.flashes = st.flashes ++ ["Invalid input."] ∧
    (index_post st (some t) (some y)).2 = Response.redirect "index" := by
  have hcond : t = "" ∨ y = "" ∨ y.length ≠ 4 ∨ t.length > 60 := by
    rcases hbad with h | h | h | h
    · exact Or.inl h
    · exact Or.inr (Or.inr (Or.inr h))
    · exact Or.inr (Or.inl h)
    · exact Or.inr (Or.inr (Or.inl h))
  simp [index_post, hauth, hcond, flash, redirectTo_index]

/-- C1 witness: the amended theorem applied at a concrete authenticated
state with an empty title. -/
theorem c1_invalid_create_rejected_witness :
    (index_post stateAuth (some "") (some "2016")).1.movies = stateAuth.movies ∧
    (index_post stateAuth (some "") (some "2016")).1.flashes =
      stateAuth.flashes ++ ["Invalid input."] ∧
    (index_post stateAuth (some "") (some "2016")).2 = Response.redirect "index" :=
  c1_invalid_create_rejected stateAuth admin0 "" "2016" (by decide) (Or.inl rfl)

/-- C3: for every unauthenticated POST to the create (catalog index), edit,
or delete endpoints, the movie table is unchanged and the response is a
redirect (never an error page); the unauthenticated catalog-index POST in
particular is silently redirected with no effect at all. -/
theorem c3_unauthenticated_posts_no_effect (st : AppState) (movieId : Nat)
    (title year : Option String) (t y : String)
    (hanon : st.session = Session.anonymous) :
    index_post st title year = (st, Response.redirect "index") ∧
    (edit_post st movieId t y).1.movies = st.movies ∧
    (edit_post st movieId t y).2 = Response.redirect "login" ∧
    (delete_post st movieId).1.movies = st.movies ∧
    (delete_post st movieId).2 = Response.redirect "login" := by
  have hcu : currentUser st = none := currentUser_of_anonymous st hanon
  refine ⟨?_, ?_, ?_, ?_, ?_⟩ <;>
    simp [index_post, edit_post, delete_post, hcu, flash,
      redirectTo_index, redirectTo_login]

/-- C3 witness: the theorem applied at a concrete anonymous state. -/
theorem c3_unauthenticated_posts_no_effect_witness :
    index_post state0 (some "Arrival") (some "2016") = (state0, Response.redirect "index") ∧
    (edit_post state0 7 "Leon" "1994").1.movies = state0.movies ∧
    (edit_post state0 7 "Leon" "1994").2 = Response.redirect "login" ∧
    (delete_post state0 7).1.movies = state0.movies ∧
    (delete_post state0 7).2 = Response.redirect "login" :=
  c3_unauthenticated_posts_no_effect state0 7 (some "Arrival") (some "2016")
    "Leon" "1994" rfl

/-- C4: the claim is right and the code is wrong: at the failing input
(authenticated session, settings POST with an empty display name) the stored
name is unchanged and "Invalid input." is flashed, but `url_for('settings.')`
— the stray dot of src/app.py:183 names no registered endpoint — raises
BuildError, so the response is an unhandled 500 error rather than a redirect
back to the settings form. -/
theorem c4_settings_invalid_raises :
    (settings_post stateAuth "").1.users = stateAuth.users ∧
    (settings_post stateAuth "").1.flashes = ["Invalid input."] ∧
    (settings_post stateAuth "").2 = Response.error "BuildError" := by
  decide

/-- C5: `validate_password` fails closed for a user with no stored password
hash: it returns false for every plaintext (under every digest function)
rather than raising or succeeding. -/
theorem c5_validate_password_fails_closed (H : String → String → String)
    (u : User) (plaintext : String) (h : u.password_hash = none) :
    u.validate_password H plaintext = false := by
  simp [User.validate_password, h, check_password_hash]

/-- C5 witness: the theorem applied to the seeded user with no hash. -/
theorem c5_validate_password_fails_closed_witness :
    noHashUser.password_hash = none ∧
    noHashUser.validate_password digest0 "secret" = false :=
  ⟨rfl, c5_validate_password_fails_closed digest0 noHashUser "secret" rfl⟩

/-- C10: with an empty user table, a login POST with non-empty username and
password dereferences the absent `User.query.first()` row and raises an
unhandled AttributeError — the state is untouched, nothing is flashed, and
the generic "Invalid username or password." redirect is never produced; the
no-error branches of login require at least one User record. -/
theorem c10_login_empty_user_table (H : String → String → String)
    (st : AppState) (username password : String) (hempty : st.users = [])
    (hu : username ≠ "") (hp : password ≠ "") :
    login H st username password = (st, Response.error "AttributeError") ∧
    (login H st username password).2 ≠ Response.redirect "login" ∧
    (login H st username password).1.flashes = st.flashes := by
  have hcond : ¬ (username = "" ∨ password = "") := by
    rintro (h | h)
    · exact hu h
    · exact hp h
  simp [login, hcond, hempty]

/-- C2: against a store whose first (admin) record exists, a login POST with
non-empty fields authenticates and redirects to the catalog exactly when the
submitted username equals the admin's username and the password validates
against the stored hash; on any mismatch (wrong username, wrong password, or
both) the session stays Anonymous and the single generic message
"Invalid username or password." is flashed. -/
theorem c2_login_generic_failure (H : String → String → String) (st : AppState)
    (admin : User) (username password : String)
    (hfirst : st.users.head? = some admin)
    (hanon : st.session = Session.anonymous)
    (hu : username ≠ "") (hp : password ≠ "") :
    ((some username = admin.username ∧ admin.validate_password H password = true) →
      (login H st username password).1.session = Session.authenticated admin.id ∧
      (login H st username password).2 = Response.redirect "index") ∧
    (¬ (some username = admin.username ∧ admin.validate_password H password = true) →
      (login H st username password).1.session = Session.anonymous ∧
      (login H st username password).1.flashes =
        st.flashes ++ ["Invalid username or password."] ∧
      (login H st username password).2 = Response.redirect "login") := by
  have hcond : ¬ (username = "" ∨ password = "") := by
    rintro (h | h)
    · exact hu h
    · exact hp h
  constructor
  · intro hm
    simp [login, hcond, hfirst, hm, flash, redirectTo_index]
  · intro hm
    simp [login, hcond, hfirst, hm, flash, redirectTo_login, hanon]

/-- C2 witness: the mismatch half of the theorem at a concrete wrong
password. -/
theorem c2_login_generic_failure_witness :
    (login digest0 state0 "admin" "wrong").1.session = Session.anonymous ∧
    (login digest0 state0 "admin" "wrong").1.flashes =
      state0.flashes ++ ["Invalid username or password."] ∧
    (login digest0 state0 "admin" "wrong").2 = Response.redirect "login" :=
  (c2_login_generic_failure digest0 state0 admin0 "admin" "wrong" rfl rfl
    (by decide) (by decide)).2 (by decide)

/-- C6: authenticated double delete on the same id: the first call removes
the record (it is gone from the table and `get` no longer finds it), and the
second call returns 404 with the whole application state unchanged from the
state after the first call. -/
theorem c6_delete_twice (st : AppState) (u : User) (movieId : Nat) (m : Movie)
    (hauth : currentUser st = some u)
    (hget : getMovie st movieId = some m) :
    m ∉ (delete_post st movieId).1.movies ∧
    getMovie (delete_post st movieId).1 movieId = none ∧
    delete_post (delete_post st movieId).1 movieId =
      ((delete_post st movieId).1, Response.notFound) := by
  have hget' : st.movies.find? (fun mv => mv.id == movieId) = some m := hget
  have hmid := List.find?_some hget'
  have h1 : (delete_post st movieId).1 =
      flash { st with movies := st.movies.filter (fun mv => ! (mv.id == movieId)) }
        "Item deleted." := by
    simp [delete_post, hauth, hget]
  have hget1 : getMovie (delete_post st movieId).1 movieId = none := by
    rw [h1]
    exact find?_filter_ne_id st.movies movieId
  have hcu1 : currentUser (delete_post st movieId).1 = some u := by
    rw [h1, currentUser_flash_movies]
    exact hauth
  refine ⟨?_, hget1, ?_⟩
  · rw [h1]
    intro hmem
    have hpm := (List.mem_filter.mp hmem).2
    simp only [hmid, Bool.not_true] at hpm
    exact Bool.false_ne_true hpm
  · generalize hst1 : (delete_post st movieId).1 = st1 at hcu1 hget1 ⊢
    simp [delete_post, hcu1, hget1]

/-- C6 witness: the theorem applied at the concrete one-movie state. -/
theorem c6_delete_twice_witness :
    movie5 ∉ (delete_post stateAuthMovie 5).1.movies ∧
    getMovie (delete_post stateAuthMovie 5).1 5 = none ∧
    delete_post (delete_post stateAuthMovie 5).1 5 =
      ((delete_post stateAuthMovie 5).1, Response.notFound) :=
  c6_delete_twice stateAuthMovie admin0 5 movie5 (by decide) (by decide)

/-- C7: every authenticated valid creation (title non-empty and ≤60, year
non-empty of length 4, fresh autoincrement id) appends a record with exactly
the submitted title and year: it appears in `list_all()` afterwards, and
`get` on the newly assigned id returns a record with identical title and
year. -/
theorem c7_create_get_roundtrip (st : AppState) (u : User) (t y : String)
    (hauth : currentUser st = some u)
    (ht : t ≠ "") (ht60 : t.length ≤ 60) (hy : y ≠ "") (hy4 : y.length = 4)
    (hfresh : ∀ m ∈ st.movies, m.id ≠ st.nextMovieId) :
    (index_post st (some t) (some y)).1.movies =
      st.movies ++ [{ id := st.nextMovieId, title := t, year := y }] ∧
    ({ id := st.nextMovieId, title := t, year := y } : Movie) ∈
      list_all (index_post st (some t) (some y)).1 ∧
    getMovie (index_post st (some t) (some y)).1 st.nextMovieId =
      some { id := st.nextMovieId, title := t, year := y } := by
  have hcond : ¬ (t = "" ∨ y = "" ∨ y.length ≠ 4 ∨ t.length > 60) := by
    push_neg
    exact ⟨ht, hy, hy4, ht60⟩
  have h1 : (index_post st (some t) (some y)).1 =
      flash { st with
          movies := st.movies ++ [{ id := st.nextMovieId, title := t, year := y }],
          nextMovieId := st.nextMovieId + 1 }
        "Item created." := by
    simp [index_post, hauth, hcond]
  refine ⟨by rw [h1]; rfl, ?_, ?_⟩
  · rw [list_all, h1]
    show _ ∈ st.movies ++ [_]
    simp
  · rw [getMovie, h1]
    show (st.movies ++ [_]).find? _ = _
    exact find?_id_append_fresh st.movies st.nextMovieId _ (by simp) hfresh

/-- C7 witness: the theorem applied at the concrete authenticated state with
an empty catalog and the valid submission ("Arrival", "2016"). -/
theorem c7_create_get_roundtrip_witness :
    (index_post stateAuth (some "Arrival") (some "2016")).1.movies =
      stateAuth.movies ++ [{ id := stateAuth.nextMovieId, title := "Arrival", year := "2016" }] ∧
    ({ id := stateAuth.nextMovieId, title := "Arrival", year := "2016" } : Movie) ∈
      list_all (index_post stateAuth (some "Arrival") (some "2016")).1 ∧
    getMovie (index_post stateAuth (some "Arrival") (some "2016")).1 stateAuth.nextMovieId =
      some { id := stateAuth.nextMovieId, title := "Arrival", year := "2016" } :=
  c7_create_get_roundtrip stateAuth admin0 "Arrival" "2016" (by decide)
    (by decide) (by decide) (by decide) (by decide) (by simp [stateAuth, state0])

/-- C8 counterexample: with two stored users sharing username "admin" and
password "pw", the submitted credentials match the second record — a record
other than the first — and yet login transitions the session to
Authenticated (as the first user), refuting the claim's "never transitions
the session to Authenticated". -/
theorem c8_counterexample :
    twoUserState.users.head? = some adminA ∧
    adminB ∈ twoUserState.users ∧ adminB ≠ adminA ∧
    some "admin" = adminB.username ∧
    adminB.validate_password digest0 "pw" = true ∧
    (login digest0 twoUserState "admin" "pw").1.session =
      Session.authenticated adminA.id := by
  decide

/-- C8 (amended): login verifies credentials only against the first user
record by insertion order: starting from an anonymous session, the session
after login is either still Anonymous or Authenticated as the first record,
and whenever the submitted credentials do not match the first record the
session stays Anonymous — even if they match a later record. -/
theorem c8_login_first_user_only (H : String → String → String) (st : AppState)
    (first : User) (username password : String)
    (hfirst : st.users.head? = some first)
    (hanon : st.session = Session.anonymous) :
    ((login H st username password).1.session = Session.anonymous ∨
     (login H st username password).1.session = Session.authenticated first.id) ∧
    (¬ (some username = first.username ∧ first.validate_password H password = true) →
      (login H st username password).1.session = Session.anonymous) := by
  by_cases hup : username = "" ∨ password = ""
  · constructor
    · exact Or.inl (by simp [login, hup, flash, hanon])
    · intro _
      simp [login, hup, flash, hanon]
  · by_cases hm : some username = first.username ∧
        first.validate_password H password = true
    · constructor
      · exact Or.inr (by simp [login, hup, hfirst, hm, flash])
      · intro hn
        exact absurd hm hn
    · constructor
      · exact Or.inl (by simp [login, hup, hfirst, hm, flash, hanon])
      · intro _
        simp [login, hup, hfirst, hm, flash, hanon]

/-- C8 witness: the amended theorem at a concrete wrong password against the
single-admin store. -/
theorem c8_login_first_user_only_witness :
    ((login digest0 state0 "admin" "wrong").1.session = Session.anonymous ∨
     (login digest0 state0 "admin" "wrong").1.session =
       Session.authenticated admin0.id) ∧
    (¬ (some "admin" = admin0.username ∧
        admin0.validate_password digest0 "wrong" = true) →
      (login digest0 state0 "admin" "wrong").1.session = Session.anonymous) :=
  c8_login_first_user_only digest0 state0 admin0 "admin" "wrong" rfl rfl

/-- C9: for every path-provided name, the user page body is the greeting
"User Page : " followed by the markup-escaped name, and the whole body is
markup-safe: it contains no raw `<` or `>`, and every `&` in it begins one
of the five escape entities — so markup characters of the name never appear
unescaped. -/
theorem c9_user_page_escaped (name : String) :
    user_page name = "User Page : " ++ escape name ∧
    noRawMarkup (user_page name).data = true := by
  refine ⟨rfl, ?_⟩
  show noRawMarkup
    ('U' :: 's' :: 'e' :: 'r' :: ' ' :: 'P' :: 'a' :: 'g' :: 'e' :: ' ' :: ':' :: ' ' ::
      escapeChars name.data) = true
  exact noRawMarkup_escapeChars name.data

/-- C10 witness: the theorem applied at the concrete empty-table state. -/
theorem c10_login_empty_user_table_witness :
    login digest0 stateNoUsers "admin" "secret" =
      (stateNoUsers, Response.error "AttributeError") ∧
    (login digest0 stateNoUsers "admin" "secret").2 ≠ Response.redirect "login" ∧
    (login digest0 stateNoUsers "admin" "secret").1.flashes = stateNoUsers.flashes :=
  c10_login_empty_user_table digest0 stateNoUsers "admin" "secret" rfl
    (by decide) (by decide)

end FlaskStarted
